import Mathlib

/-!
Verification development for the twitter_scrapper analytics pipeline
(src/main.py).  The Python source is shallowly embedded: the selenium
driver is modelled as a stream of pages of tweet cards, the TextBlob
scorer as a fallible scoring function, and the MongoDB collection as a
fault-injectable sink whose individual calls may succeed or raise.
-/

/-- Engagement counts of one tweet (replies / retweets / likes). -/
structure Engagements where
  replies : Nat
  retweets : Nat
  likes : Nat
  deriving DecidableEq, Repr

/-- One extracted tweet as built by `_extract_tweet_data` in src/main.py:
content text, user handle, engagement counts and the `is_ad` flag. -/
structure TweetData where
  content : String
  user_handle : String
  engagements : Engagements
  is_ad : Bool
  deriving DecidableEq, Repr

/-- The `sentiment_distribution` sub-dictionary of a successful keyword
analysis. -/
structure SentimentDistribution where
  positive : Nat
  neutral : Nat
  negative : Nat
  deriving DecidableEq, Repr

/-- The success dictionary returned by `get_keyword_data`. -/
structure KeywordSuccess where
  keyword : String
  tweet_count : Nat
  average_sentiment : ℚ
  sentiment_distribution : SentimentDistribution
  deriving DecidableEq, Repr

/-- Result of analysing one keyword: either the success dictionary or the
error dictionary `{"keyword": keyword, "error": str(e)}`. -/
inductive KeywordResult where
  | success (r : KeywordSuccess)
  | failure (keyword : String) (error : String)
  deriving DecidableEq, Repr

/-- The `keyword` field present on both variants of a keyword result. -/
def KeywordResult.kwOf : KeywordResult → String
  | .success r => r.keyword
  | .failure kw _ => kw

/-- The filter applied inside `get_keyword_data`'s scoring loop:
`tweet and not tweet.get('is_ad', False) and tweet.get('content')`
(a tweet dictionary is scored only when it is not an ad and its content
string is non-empty). -/
def hasContent (t : TweetData) : Bool :=
  !t.is_ad && t.content != ""

/-- The scoring loop of `get_keyword_data`: walk the fetched tweets in
order, score the content of those passing `hasContent` with the (fallible)
sentiment scorer; the first scorer exception propagates. -/
def scoreTweets (score : String → Except String ℚ) :
    List TweetData → Except String (List ℚ)
  | [] => .ok []
  | t :: ts =>
    if hasContent t then
      match score t.content with
      | .error e => .error e
      | .ok s =>
        match scoreTweets score ts with
        | .error e => .error e
        | .ok rest => .ok (s :: rest)
    else scoreTweets score ts

/-- Embedding of `get_keyword_data` from src/main.py.  `fetched` is the outcome of
`scraper.scrape_keyword_tweets(keyword, max_tweets=20)` (an exception or a
list of tweets); `score` is the TextBlob polarity call.  Any exception
raised during fetch or scoring is caught and converted into the failure
dictionary; otherwise the metrics are computed: average over the scored
sentiments (0 when none), positive bucket `s > 0.2`, negative bucket
`s < -0.2`, neutral as the remainder, and `tweet_count = len(tweets)`. -/
def get_keyword_data (keyword : String) (fetched : Except String (List TweetData))
    (score : String → Except String ℚ) : KeywordResult :=
  match fetched with
  | .error e => .failure keyword e
  | .ok tweets =>
    match scoreTweets score tweets with
    | .error e => .failure keyword e
    | .ok sentiments =>
      let avg : ℚ :=
        if sentiments.length ≠ 0 then sentiments.sum / (sentiments.length : ℚ) else 0
      let positive_count := sentiments.countP (fun s => decide (s > (0.2 : ℚ)))
      let negative_count := sentiments.countP (fun s => decide (s < (-0.2 : ℚ)))
      let neutral_count := sentiments.length - positive_count - negative_count
      .success
        { keyword := keyword
          tweet_count := tweets.length
          average_sentiment := avg
          sentiment_distribution :=
            { positive := positive_count
              neutral := neutral_count
              negative := negative_count } }

/-- One tweet card as found on the search results page, abstracting the
DOM element handed to `_extract_tweet_data`: `cardId` is the identity used
by the dedup key `str(card)`; `hasTimeElem` is whether a `.//time` element
exists (its absence marks an ad); `handleSpan` is the text of the span
containing an `@` when present; `contentTexts` are the texts of the
tweet-text span/anchor elements; the three count fields are the texts of
the reply / retweet / like count spans when present; `extractFails` models
an unexpected exception inside `_extract_tweet_data` (caught there, which
then returns `None`). -/
structure Card where
  cardId : String
  hasTimeElem : Bool
  handleSpan : Option String
  contentTexts : List String
  replyText : Option String
  retweetText : Option String
  likeText : Option String
  extractFails : Bool
  deriving DecidableEq, Repr

/-- What `_extract_tweet_data` can produce besides `None`: the bare
`{"is_ad": True}` marker, or a full tweet dictionary. -/
inductive Extracted where
  | adOnly
  | tweet (t : TweetData)
  deriving DecidableEq, Repr

/-- The engagement-count parsing of `_extract_tweet_data`:
`int(text.strip().replace(",", "")) if text.strip().isdigit() else 0`,
with a missing element (or ValueError) giving 0. -/
def parseCount (txt : Option String) : Nat :=
  match txt with
  | none => 0
  | some t =>
    let s := t.trim
    if s ≠ "" ∧ s.toList.all Char.isDigit then ((s.replace "," "").toNat?).getD 0
    else 0

/-- Embedding of `_extract_tweet_data` from src/main.py: a card without a `.//time`
element is an ad and yields `{"is_ad": True}`; an unexpected exception
yields `None`; otherwise the full dictionary is built (handle defaulting
to "unknown", content the concatenation of the tweet-text element texts,
`is_ad` False). -/
def extract_tweet_data (card : Card) : Option Extracted :=
  if card.extractFails then none
  else if !card.hasTimeElem then some .adOnly
  else
    some (.tweet
      { content := String.join card.contentTexts
        user_handle := card.handleSpan.getD "unknown"
        engagements :=
          { replies := parseCount card.replyText
            retweets := parseCount card.retweetText
            likes := parseCount card.likeText }
        is_ad := false })

/-- The inner for-loop over the tweet cards of one page in
`scrape_keyword_tweets`: stop once `max_tweets` tweets are collected, skip
cards whose `str(card)` identity was already seen, record the identity,
extract, and append the extraction when it is a non-ad dictionary,
counting it in `added_tweets`.  Returns the updated
`(tweets_data, tweet_ids, added_tweets)`. -/
def processCards (max_tweets : Nat) :
    List Card → List TweetData → List String → Nat →
    List TweetData × List String × Nat
  | [], tw, ids, added => (tw, ids, added)
  | card :: rest, tw, ids, added =>
    if max_tweets ≤ tw.length then (tw, ids, added)
    else if ids.contains card.cardId then processCards max_tweets rest tw ids added
    else
      match extract_tweet_data card with
      | some (.tweet t) =>
        if !t.is_ad then
          processCards max_tweets rest (tw ++ [t]) (card.cardId :: ids) (added + 1)
        else processCards max_tweets rest tw (card.cardId :: ids) added
      | _ => processCards max_tweets rest tw (card.cardId :: ids) added

/-- State of the scroll-and-collect loop of `scrape_keyword_tweets`. -/
structure ScrapeState where
  tweets_data : List TweetData
  tweet_ids : List String
  scroll_attempts : Nat
  deriving DecidableEq, Repr

/-- The scroll-and-collect while-loop of `scrape_keyword_tweets`.  The
page stream `pages` gives, for each loop iteration, either `none` (an
exception during that iteration, caught by the loop's except branch which
increments `scroll_attempts` and continues) or the list of tweet cards
found.  The loop runs while `len(tweets_data) < max_tweets` and
`scroll_attempts < max_scroll`; when a pass over the cards added nothing
`scroll_attempts` is incremented, otherwise it is reset to 0.  `fuel`
bounds the number of iterations evaluated; `none` is returned only when
fuel runs out with the loop condition still true. -/
def scrapeLoopFuel (max_tweets max_scroll : Nat) (pages : Nat → Option (List Card)) :
    Nat → Nat → ScrapeState → Option (List TweetData)
  | 0, _, st =>
    if st.tweets_data.length < max_tweets ∧ st.scroll_attempts < max_scroll then none
    else some st.tweets_data
  | fuel + 1, n, st =>
    if st.tweets_data.length < max_tweets ∧ st.scroll_attempts < max_scroll then
      match pages n with
      | none =>
        scrapeLoopFuel max_tweets max_scroll pages fuel (n + 1)
          ⟨st.tweets_data, st.tweet_ids, st.scroll_attempts + 1⟩
      | some cards =>
        let res := processCards max_tweets cards st.tweets_data st.tweet_ids 0
        if res.2.2 = 0 then
          scrapeLoopFuel max_tweets max_scroll pages fuel (n + 1)
            ⟨res.1, res.2.1, st.scroll_attempts + 1⟩
        else
          scrapeLoopFuel max_tweets max_scroll pages fuel (n + 1) ⟨res.1, res.2.1, 0⟩
    else some st.tweets_data

/-- Embedding of `scrape_keyword_tweets` from src/main.py, as a function of the page
stream: the loop starts from empty `tweets_data` and `tweet_ids` and
`scroll_attempts = 0`, with `max_scroll_attempts = 10` as in the source.
The fuel `max_tweets * 11 + 10` dominates the loop's iteration count
(proved below), so the call always yields `some` list. -/
def scrape_keyword_tweets (pages : Nat → Option (List Card)) (max_tweets : Nat) :
    Option (List TweetData) :=
  scrapeLoopFuel max_tweets 10 pages (max_tweets * 11 + 10) 0 ⟨[], [], 0⟩

/-- Termination measure of the scroll loop (with the source's scroll cap
10): lexicographic in (tweets still collectable, scroll attempts left). -/
def scrapeMeasure (max_tweets : Nat) (st : ScrapeState) : Nat :=
  (max_tweets - st.tweets_data.length) * 11 + (10 - st.scroll_attempts)

/-- The stored job document of `run_analytics_and_store`: the
`base_document` holds `status` and the `data` array; `error` is the field
set by the failure-path `$set` (absent otherwise).  The timestamp is not
modelled (no claim touches it). -/
structure RunDoc where
  status : String
  data : List KeywordResult
  error : Option String
  deriving DecidableEq, Repr

/-- Fault model of the MongoDB collection: the outcome of each individual
call site in `run_analytics_and_store`.  `insert` is the
`collection.insert_one(base_document)` call; `mainPush i` the `$push` of
the i-th keyword's result; `fallbackPush i` the `$push` of the i-th
keyword's error record (attempted only when `mainPush i` raised);
`setCompleted` and `setFailed` the two `$set` status updates.  `.error e`
means the call raised with message `e`. -/
structure SinkModel where
  insert : Except String Unit
  mainPush : Nat → Except String Unit
  fallbackPush : Nat → Except String Unit
  setCompleted : Except String Unit
  setFailed : Except String Unit

/-- The per-keyword for-loop of `run_analytics_and_store`: analyse the
keyword (`get_keyword_data` is total, so the inner try can only raise in
the `$push`), push the result; on a push exception the inner except
pushes `{"keyword": kw, "error": "Failed to process kw: e"}`; if that
second push also raises, the exception escapes the loop, carrying the
document state reached so far. -/
def processKeywords (sink : SinkModel) (fetch : String → Except String (List TweetData))
    (score : String → Except String ℚ) :
    List String → Nat → RunDoc → Except (String × RunDoc) RunDoc
  | [], _, doc => .ok doc
  | kw :: rest, i, doc =>
    let r := get_keyword_data kw (fetch kw) score
    match (sink.mainPush i : Except String Unit) with
    | .ok _ =>
      processKeywords sink fetch score rest (i + 1) { doc with data := doc.data ++ [r] }
    | .error e =>
      let msg := "Failed to process " ++ kw ++ ": " ++ e
      match (sink.fallbackPush i : Except String Unit) with
      | .ok _ =>
        processKeywords sink fetch score rest (i + 1)
          { doc with data := doc.data ++ [.failure kw msg] }
      | .error e2 => .error (e2, doc)

/-- Observable outcome of one `run_analytics_and_store` invocation:
`skipped` when credentials are missing (early return, nothing created);
`returned doc` when the function returns normally, with the final stored
document if one was created; `raised e doc` when an exception escapes the
function (the failure-path `$set` itself raised) leaving the stored
document as `doc`. -/
inductive RunnerOutcome where
  | skipped
  | returned (doc : Option RunDoc)
  | raised (e : String) (doc : RunDoc)
  deriving DecidableEq, Repr

/-- Embedding of `run_analytics_and_store` from src/main.py.  `credsOk` models
`all([TWITTER_MAIL, TWITTER_USERNAME, TWITTER_PASSWORD])`; `login` the
outcome of `scraper.login()`.  If login or the `insert_one` raise, the
outer except finds no `document_id` and the function returns with nothing
stored.  Otherwise the keyword loop runs on the in-progress document;
after it, `$set status=completed`.  Any exception reaching the outer
except with a document created triggers `$set status=failed, error=str(e)`
— and that update is not itself guarded, so its own failure escapes. -/
def run_analytics_and_store (credsOk : Bool) (login : Except String Unit)
    (sink : SinkModel) (fetch : String → Except String (List TweetData))
    (score : String → Except String ℚ) (keywords : List String) : RunnerOutcome :=
  if !credsOk then .skipped
  else
    match login with
    | .error _ => .returned none
    | .ok _ =>
      match (sink.insert : Except String Unit) with
      | .error _ => .returned none
      | .ok _ =>
        match processKeywords sink fetch score keywords 0 ⟨"in_progress", [], none⟩ with
        | .ok doc =>
          match (sink.setCompleted : Except String Unit) with
          | .ok _ => .returned (some { doc with status := "completed" })
          | .error e =>
            match (sink.setFailed : Except String Unit) with
            | .ok _ => .returned (some { doc with status := "failed", error := some e })
            | .error e2 => .raised e2 doc
        | .error (e, doc) =>
          match (sink.setFailed : Except String Unit) with
          | .ok _ => .returned (some { doc with status := "failed", error := some e })
          | .error e2 => .raised e2 doc

/-- The hard-coded keyword list of src/main.py. -/
def KEYWORDS : List String :=
  ["Ethereum", "ETH", "Bitcoin", "BTC", "SOL", "Bored Ape", "BAYC",
   "Polygon", "Chainlink", "LINK", "Shiba Inu", "SHIB", "Uniswap", "UNI"]

/-- JSON response of the `/analytics` endpoint: either a single error
dictionary or the list of per-keyword results. -/
inductive AnalyticsResponse where
  | errorResp (msg : String)
  | results (items : List KeywordResult)
  deriving DecidableEq, Repr

/-- The `GET /analytics` handler `get_analytics` from src/main.py: missing
credentials give the configuration error dictionary; a `scraper.login()`
exception reaches the outer except and gives the
`"Failed to get analytics: ..."` error dictionary; otherwise the loop
appends `get_keyword_data` for each keyword (which never raises, so the
inner except is idle) and the list is returned. -/
def get_analytics (credsOk : Bool) (login : Except String Unit)
    (fetch : String → Except String (List TweetData))
    (score : String → Except String ℚ) : AnalyticsResponse :=
  if !credsOk then
    .errorResp "Twitter credentials not configured. Please set environment variables."
  else
    match login with
    | .error e => .errorResp ("Failed to get analytics: " ++ e)
    | .ok _ => .results (KEYWORDS.map fun kw => get_keyword_data kw (fetch kw) score)

/-- Whether an `/analytics` response is the per-keyword result list. -/
def AnalyticsResponse.isResults : AnalyticsResponse → Bool
  | .results _ => true
  | .errorResp _ => false

/-- A tweet fetched with empty content (reachable: a card whose tweet-text
element is missing yields `content = ""`). -/
def emptyTweet : TweetData := ⟨"", "unknown", ⟨0, 0, 0⟩, false⟩

/-- A scorer that always returns polarity 0. -/
def zeroScore : String → Except String ℚ := fun _ => .ok 0

/-- A fetch that always succeeds with zero tweets. -/
def emptyFetch : String → Except String (List TweetData) := fun _ => .ok []

/-- A sink whose calls all succeed. -/
def okSink : SinkModel := ⟨.ok (), fun _ => .ok (), fun _ => .ok (), .ok (), .ok ()⟩

/-- A sink where only the final completed-status update raises. -/
def compFailSink : SinkModel :=
  ⟨.ok (), fun _ => .ok (), fun _ => .ok (), .error "status write down", .ok ()⟩

/-- A sink where every `$push` raises but status updates succeed. -/
def pushFailSink : SinkModel :=
  ⟨.ok (), fun _ => .error "push down", fun _ => .error "push down", .ok (), .ok ()⟩

/-- A sink where every `$push` raises and the failed-status update also
raises. -/
def pushFailRaiseSink : SinkModel :=
  ⟨.ok (), fun _ => .error "push down", fun _ => .error "push down", .ok (),
   .error "status down"⟩

/-- Two distinct DOM elements (different `str(card)` identities) carrying
the same tweet text. -/
def cardA : Card := ⟨"elem1", true, some "@u1", ["same text"], none, none, none, false⟩

/-- Second card with the same content as `cardA` but another identity. -/
def cardB : Card := ⟨"elem2", true, some "@u2", ["same text"], none, none, none, false⟩

/-- A page stream whose first page shows `cardA` and `cardB` and whose
later pages are empty. -/
def pagesDup : Nat → Option (List Card) := fun n => if n = 0 then some [cardA, cardB] else some []

/-- Counting two disjoint predicates over a list never exceeds its
length. -/
theorem countP_disjoint_le {α : Type} (p q : α → Bool) (l : List α)
    (h : ∀ a, p a = true → q a = false) :
    l.countP p + l.countP q ≤ l.length := by
  induction l with
  | nil => simp
  | cons a l ih =>
    rcases hp : p a with _ | _
    · rcases hq : q a with _ | _
      · simp [List.countP_cons, hp, hq]; omega
      · simp [List.countP_cons, hp, hq]; omega
    · have hq := h a hp
      simp [List.countP_cons, hp, hq]; omega

/-- A successful pass of the scoring loop yields exactly one score per
tweet passing the content filter. -/
theorem scoreTweets_ok_length (score : String → Except String ℚ) :
    ∀ ts ss, scoreTweets score ts = .ok ss →
      ss.length = (ts.filter hasContent).length := by
  intro ts
  induction ts with
  | nil =>
    intro ss h
    simp only [scoreTweets] at h
    cases h
    simp
  | cons t ts ih =>
    intro ss h
    rcases hc : hasContent t with _ | _
    · simp only [scoreTweets, hc, Bool.false_eq_true, if_false] at h
      simpa [List.filter, hc] using ih ss h
    · simp only [scoreTweets, hc, if_true] at h
      cases hs : score t.content with
      | error e => rw [hs] at h; cases h
      | ok s =>
        rw [hs] at h
        cases hr : scoreTweets score ts with
        | error e => rw [hr] at h; cases h
        | ok rest =>
          rw [hr] at h
          cases h
          simpa [List.filter, hc] using ih rest hr

/-- Both variants of `get_keyword_data`'s result carry the analysed
keyword. -/
theorem kwOf_get_keyword_data (kw : String) (f : Except String (List TweetData))
    (score : String → Except String ℚ) :
    (get_keyword_data kw f score).kwOf = kw := by
  unfold get_keyword_data
  cases f with
  | error e => rfl
  | ok tweets =>
    cases h : scoreTweets score tweets <;> simp [h, KeywordResult.kwOf]

/-- The positive and negative sentiment buckets are disjoint, so together
they never exceed the number of scored tweets. -/
theorem pos_neg_le_length (ss : List ℚ) :
    ss.countP (fun s => decide (s > (0.2 : ℚ)))
      + ss.countP (fun s => decide (s < (-0.2 : ℚ))) ≤ ss.length := by
  refine countP_disjoint_le _ _ ss ?_
  intro a ha
  simp only [decide_eq_true_eq] at ha
  simp only [decide_eq_false_iff_not, not_lt]
  linarith

/-- Unfolding `get_keyword_data` when the fetch raised. -/
theorem get_keyword_data_fetchErr (kw e : String)
    (score : String → Except String ℚ) :
    get_keyword_data kw (.error e) score = .failure kw e := rfl

/-- Unfolding `get_keyword_data` when the fetch succeeded but scoring
raised. -/
theorem get_keyword_data_scoreErr (kw : String) (tweets : List TweetData)
    (score : String → Except String ℚ) (e : String)
    (hs : scoreTweets score tweets = .error e) :
    get_keyword_data kw (.ok tweets) score = .failure kw e := by
  simp only [get_keyword_data, hs]

/-- Unfolding `get_keyword_data` when fetch and scoring both succeeded. -/
theorem get_keyword_data_ok (kw : String) (tweets : List TweetData)
    (score : String → Except String ℚ) (ss : List ℚ)
    (hs : scoreTweets score tweets = .ok ss) :
    get_keyword_data kw (.ok tweets) score =
      .success
        { keyword := kw
          tweet_count := tweets.length
          average_sentiment :=
            if ss.length ≠ 0 then ss.sum / (ss.length : ℚ) else 0
          sentiment_distribution :=
            { positive := ss.countP (fun s => decide (s > (0.2 : ℚ)))
              neutral := ss.length - ss.countP (fun s => decide (s > (0.2 : ℚ)))
                - ss.countP (fun s => decide (s < (-0.2 : ℚ)))
              negative := ss.countP (fun s => decide (s < (-0.2 : ℚ))) } } := by
  simp only [get_keyword_data, hs]

/-- Analysing a single scored tweet: the result in terms of its polarity
`q` (strict threshold comparisons appear as the bucket conditions). -/
theorem get_keyword_data_single (kw : String) (t : TweetData) (q : ℚ)
    (score : String → Except String ℚ) (hc : hasContent t = true)
    (hq : score t.content = .ok q) :
    get_keyword_data kw (.ok [t]) score =
      .success ⟨kw, 1, q,
        ⟨if (0.2 : ℚ) < q then 1 else 0,
         1 - (if (0.2 : ℚ) < q then 1 else 0) - (if q < (-0.2 : ℚ) then 1 else 0),
         if q < (-0.2 : ℚ) then 1 else 0⟩⟩ := by
  have hs : scoreTweets score [t] = .ok [q] := by simp [scoreTweets, hc, hq]
  rw [get_keyword_data_ok kw [t] score [q] hs]
  norm_num [List.countP_cons]

/-- A tweet with non-empty content, used as a concrete analyzer input. -/
def goodTweet : TweetData := ⟨"great day", "@u", ⟨0, 0, 0⟩, false⟩

/-- Claim C1 (amended): for every success result of `get_keyword_data` the
three distribution buckets sum to the number of non-empty-content tweets
that were actually scored, while `tweet_count` counts all fetched tweets
(including unscored empty-content ones). -/
theorem C1_distribution_counts_scored (kw : String) (tweets : List TweetData)
    (score : String → Except String ℚ) (r : KeywordSuccess)
    (h : get_keyword_data kw (.ok tweets) score = .success r) :
    r.sentiment_distribution.positive + r.sentiment_distribution.neutral
        + r.sentiment_distribution.negative
      = (tweets.filter hasContent).length
    ∧ r.tweet_count = tweets.length := by
  cases hs : scoreTweets score tweets with
  | error e =>
    rw [get_keyword_data_scoreErr kw tweets score e hs] at h
    cases h
  | ok ss =>
    rw [get_keyword_data_ok kw tweets score ss hs] at h
    injection h with h
    subst h
    have h1 := pos_neg_le_length ss
    have h2 := scoreTweets_ok_length score tweets ss hs
    refine ⟨?_, rfl⟩
    dsimp only
    omega

/-- Claim C1 counterexample: a fetch returning one tweet with empty
content yields the success record with `tweet_count = 1` but a sentiment
distribution summing to 0, so `positive + neutral + negative ≠
post_count`. -/
theorem C1_counterexample :
    get_keyword_data "BTC" (.ok [emptyTweet]) zeroScore =
      .success ⟨"BTC", 1, 0, ⟨0, 0, 0⟩⟩
    ∧ 0 + 0 + 0 ≠ 1 := by
  have hs : scoreTweets zeroScore [emptyTweet] = .ok [] := by
    simp [scoreTweets, hasContent, emptyTweet]
  constructor
  · rw [get_keyword_data_ok _ _ _ _ hs]
    norm_num
  · decide

/-- Claim C1 witness: the amended theorem applied to a concrete fetch
containing one scored and one unscored tweet. -/
theorem C1_distribution_counts_scored_witness :
    get_keyword_data "BTC" (.ok [goodTweet, emptyTweet]) zeroScore =
      .success ⟨"BTC", 2, 0, ⟨0, 1, 0⟩⟩
    ∧ ((⟨"BTC", 2, 0, ⟨0, 1, 0⟩⟩ : KeywordSuccess).sentiment_distribution.positive
        + (⟨"BTC", 2, 0, ⟨0, 1, 0⟩⟩ : KeywordSuccess).sentiment_distribution.neutral
        + (⟨"BTC", 2, 0, ⟨0, 1, 0⟩⟩ : KeywordSuccess).sentiment_distribution.negative
        = ([goodTweet, emptyTweet].filter hasContent).length
      ∧ (⟨"BTC", 2, 0, ⟨0, 1, 0⟩⟩ : KeywordSuccess).tweet_count
        = [goodTweet, emptyTweet].length) := by
  have hs : scoreTweets zeroScore [goodTweet, emptyTweet] = .ok [(0 : ℚ)] := by
    simp [scoreTweets, hasContent, goodTweet, emptyTweet, zeroScore]
  have h : get_keyword_data "BTC" (.ok [goodTweet, emptyTweet]) zeroScore =
      .success ⟨"BTC", 2, 0, ⟨0, 1, 0⟩⟩ := by
    rw [get_keyword_data_ok _ _ _ _ hs]
    norm_num [List.countP_cons]
  exact ⟨h, C1_distribution_counts_scored "BTC" [goodTweet, emptyTweet] zeroScore _ h⟩

/-- Claim C2: a success result reports `tweet_count` = the unfiltered
fetch size, the distribution buckets over exactly the scored sentiment
list (whose size is the number of non-empty-content tweets), the average
as the mean of those scores with 0 for an empty list — and a zero-tweet
fetch yields the all-zero success record, not an error. -/
theorem C2_success_metrics (kw : String) (tweets : List TweetData)
    (score : String → Except String ℚ) (ss : List ℚ)
    (h : scoreTweets score tweets = .ok ss) :
    get_keyword_data kw (.ok tweets) score =
      .success
        { keyword := kw
          tweet_count := tweets.length
          average_sentiment :=
            if ss.length ≠ 0 then ss.sum / (ss.length : ℚ) else 0
          sentiment_distribution :=
            { positive := ss.countP (fun s => decide (s > (0.2 : ℚ)))
              neutral := ss.length - ss.countP (fun s => decide (s > (0.2 : ℚ)))
                - ss.countP (fun s => decide (s < (-0.2 : ℚ)))
              negative := ss.countP (fun s => decide (s < (-0.2 : ℚ))) } }
    ∧ ss.countP (fun s => decide (s > (0.2 : ℚ)))
        + (ss.length - ss.countP (fun s => decide (s > (0.2 : ℚ)))
            - ss.countP (fun s => decide (s < (-0.2 : ℚ))))
        + ss.countP (fun s => decide (s < (-0.2 : ℚ)))
        = (tweets.filter hasContent).length
    ∧ get_keyword_data kw (.ok []) score = .success ⟨kw, 0, 0, ⟨0, 0, 0⟩⟩ := by
  refine ⟨get_keyword_data_ok kw tweets score ss h, ?_, ?_⟩
  · have h1 := pos_neg_le_length ss
    have h2 := scoreTweets_ok_length score tweets ss h
    omega
  · simp [get_keyword_data, scoreTweets]

/-- Claim C2 witness: the theorem applied to a concrete one-tweet fetch
scored 1/2. -/
theorem C2_success_metrics_witness :
    scoreTweets (fun _ => .ok ((1 : ℚ)/2)) [goodTweet] = .ok [(1 : ℚ)/2]
    ∧ get_keyword_data "BTC" (.ok [goodTweet]) (fun _ => .ok ((1 : ℚ)/2)) =
        .success ⟨"BTC", 1, 1/2, ⟨1, 0, 0⟩⟩
    ∧ get_keyword_data "BTC" (.ok []) (fun _ => .ok ((1 : ℚ)/2)) =
        .success ⟨"BTC", 0, 0, ⟨0, 0, 0⟩⟩ := by
  have hs : scoreTweets (fun _ => .ok ((1 : ℚ)/2)) [goodTweet] = .ok [(1 : ℚ)/2] := by
    simp [scoreTweets, goodTweet, hasContent]
  have h := C2_success_metrics "BTC" [goodTweet] (fun _ => .ok ((1 : ℚ)/2)) [(1 : ℚ)/2] hs
  refine ⟨hs, ?_, h.2.2⟩
  rw [h.1]
  norm_num [List.countP_cons]

/-- Claim C8: a scored tweet with polarity exactly 0.2 (resp. exactly
-0.2) lands in the neutral bucket, while any polarity strictly above 0.2
lands in the positive bucket and any strictly below -0.2 in the negative
bucket — the comparisons are strict. -/
theorem C8_strict_thresholds (kw : String) (t : TweetData)
    (score1 score2 : String → Except String ℚ)
    (hc : hasContent t = true)
    (h1 : score1 t.content = .ok (0.2 : ℚ))
    (h2 : score2 t.content = .ok (-0.2 : ℚ)) :
    get_keyword_data kw (.ok [t]) score1 = .success ⟨kw, 1, 0.2, ⟨0, 1, 0⟩⟩
    ∧ get_keyword_data kw (.ok [t]) score2 = .success ⟨kw, 1, -0.2, ⟨0, 1, 0⟩⟩
    ∧ (∀ q : ℚ, (0.2 : ℚ) < q → ∀ score3 : String → Except String ℚ,
        score3 t.content = .ok q →
        get_keyword_data kw (.ok [t]) score3 = .success ⟨kw, 1, q, ⟨1, 0, 0⟩⟩)
    ∧ (∀ q : ℚ, q < (-0.2 : ℚ) → ∀ score4 : String → Except String ℚ,
        score4 t.content = .ok q →
        get_keyword_data kw (.ok [t]) score4 = .success ⟨kw, 1, q, ⟨0, 0, 1⟩⟩) := by
  refine ⟨?_, ?_, ?_, ?_⟩
  · rw [get_keyword_data_single kw t 0.2 score1 hc h1]
    norm_num
  · rw [get_keyword_data_single kw t (-0.2) score2 hc h2]
    norm_num
  · intro q hq score3 h3
    rw [get_keyword_data_single kw t q score3 hc h3]
    have hnq : ¬ q < (-0.2 : ℚ) := by linarith
    simp [hq, hnq]
  · intro q hq score4 h4
    rw [get_keyword_data_single kw t q score4 hc h4]
    have hnq : ¬ (0.2 : ℚ) < q := by linarith
    simp [hq, hnq]

/-- Claim C8 witness: the theorem applied to a concrete tweet and the two
boundary scorers, with all four bucket placements evaluated. -/
theorem C8_strict_thresholds_witness :
    hasContent goodTweet = true
    ∧ get_keyword_data "BTC" (.ok [goodTweet]) (fun _ => .ok (0.2 : ℚ)) =
        .success ⟨"BTC", 1, 0.2, ⟨0, 1, 0⟩⟩
    ∧ get_keyword_data "BTC" (.ok [goodTweet]) (fun _ => .ok (-0.2 : ℚ)) =
        .success ⟨"BTC", 1, -0.2, ⟨0, 1, 0⟩⟩
    ∧ get_keyword_data "BTC" (.ok [goodTweet]) (fun _ => .ok ((1 : ℚ)/2)) =
        .success ⟨"BTC", 1, 1/2, ⟨1, 0, 0⟩⟩
    ∧ get_keyword_data "BTC" (.ok [goodTweet]) (fun _ => .ok (-(1 : ℚ)/2)) =
        .success ⟨"BTC", 1, -(1 : ℚ)/2, ⟨0, 0, 1⟩⟩ := by
  have hc : hasContent goodTweet = true := by decide
  have h := C8_strict_thresholds "BTC" goodTweet
    (fun _ => .ok (0.2 : ℚ)) (fun _ => .ok (-0.2 : ℚ)) hc rfl rfl
  refine ⟨hc, h.1, h.2.1, ?_, ?_⟩
  · exact h.2.2.1 ((1 : ℚ)/2) (by norm_num) (fun _ => .ok ((1 : ℚ)/2)) rfl
  · exact h.2.2.2 (-(1 : ℚ)/2) (by norm_num) (fun _ => .ok (-(1 : ℚ)/2)) rfl

/-- When every result `$push` succeeds, the keyword loop stores exactly
one entry per keyword, in keyword order, and returns normally. -/
theorem processKeywords_allOk (sink : SinkModel)
    (fetch : String → Except String (List TweetData))
    (score : String → Except String ℚ)
    (hpush : ∀ i, sink.mainPush i = .ok ()) :
    ∀ kws n doc, processKeywords sink fetch score kws n doc =
      .ok { doc with
            data := doc.data ++ kws.map fun kw => get_keyword_data kw (fetch kw) score } := by
  intro kws
  induction kws with
  | nil =>
    intro n doc
    cases doc
    simp [processKeywords]
  | cons kw rest ih =>
    intro n doc
    simp only [processKeywords, hpush n, List.map_cons]
    rw [ih (n + 1)]
    cases doc
    simp

/-- When, for every keyword, the result `$push` or at least the
error-record `$push` succeeds, the keyword loop returns normally with one
stored entry per keyword and an unchanged status. -/
theorem processKeywords_entry_per_keyword (sink : SinkModel)
    (fetch : String → Except String (List TweetData))
    (score : String → Except String ℚ)
    (h : ∀ i, sink.mainPush i = .ok () ∨ sink.fallbackPush i = .ok ()) :
    ∀ kws n doc, ∃ doc2, processKeywords sink fetch score kws n doc = .ok doc2
      ∧ doc2.data.length = doc.data.length + kws.length
      ∧ doc2.status = doc.status := by
  intro kws
  induction kws with
  | nil =>
    intro n doc
    exact ⟨doc, by simp [processKeywords], by simp, rfl⟩
  | cons kw rest ih =>
    intro n doc
    cases hm : sink.mainPush n with
    | ok u =>
      obtain ⟨doc2, h1, h2, h3⟩ := ih (n + 1)
        { doc with data := doc.data ++ [get_keyword_data kw (fetch kw) score] }
      refine ⟨doc2, ?_, ?_, h3⟩
      · simp only [processKeywords, hm]
        exact h1
      · simp at h2 ⊢
        omega
    | error e =>
      have hf : sink.fallbackPush n = .ok () := by
        rcases h n with hm2 | hf
        · rw [hm] at hm2; cases hm2
        · exact hf
      obtain ⟨doc2, h1, h2, h3⟩ := ih (n + 1)
        { doc with
          data := doc.data ++ [.failure kw ("Failed to process " ++ kw ++ ": " ++ e)] }
      refine ⟨doc2, ?_, ?_, h3⟩
      · simp only [processKeywords, hm, hf]
        exact h1
      · simp at h2 ⊢
        omega

/-- The happy path of `run_analytics_and_store`: credentials present,
login, insert, every result push and the completed-status write succeed;
the run returns normally with the completed document holding one result
per keyword in order. -/
theorem run_allOk (sink : SinkModel) (fetch : String → Except String (List TweetData))
    (score : String → Except String ℚ) (keywords : List String)
    (hins : sink.insert = .ok ()) (hpush : ∀ i, sink.mainPush i = .ok ())
    (hcomp : sink.setCompleted = .ok ()) :
    run_analytics_and_store true (.ok ()) sink fetch score keywords =
      .returned (some ⟨"completed",
        keywords.map fun kw => get_keyword_data kw (fetch kw) score, none⟩) := by
  simp only [run_analytics_and_store, Bool.not_true, hins,
    processKeywords_allOk sink fetch score hpush keywords 0, hcomp]
  simp

/-- A sink whose `insert_one` raises. -/
def insFailSink : SinkModel :=
  ⟨.error "db down", fun _ => .ok (), fun _ => .ok (), .ok (), .ok ()⟩

/-- A sink where the first keyword's result push raises but every
error-record push succeeds. -/
def fallbackOkSink : SinkModel :=
  ⟨.ok (), fun i => if i = 0 then .error "push down" else .ok (),
   fun _ => .ok (), .ok (), .ok ()⟩

/-- A scorer that always raises. -/
def scoreFailW : String → Except String ℚ := fun _ => .error "nlp down"

/-- A fetch that always raises. -/
def fetchFailW : String → Except String (List TweetData) := fun _ => .error "driver down"

/-- Claim C3: exceptions during fetch or scoring are caught inside
`get_keyword_data` and become the failure dictionary for that keyword; the
job-runner loop still stores one entry per keyword (in keyword order) for
the whole run, whatever the fetch/score outcomes per keyword. -/
theorem C3_exceptions_contained (kw e e2 : String)
    (score : String → Except String ℚ) (tweets : List TweetData)
    (sink : SinkModel) (fetch : String → Except String (List TweetData))
    (keywords : List String)
    (hscore : scoreTweets score tweets = .error e2)
    (hins : sink.insert = .ok ()) (hpush : ∀ i, sink.mainPush i = .ok ())
    (hcomp : sink.setCompleted = .ok ()) :
    get_keyword_data kw (.error e) score = .failure kw e
    ∧ get_keyword_data kw (.ok tweets) score = .failure kw e2
    ∧ ∃ doc, run_analytics_and_store true (.ok ()) sink fetch score keywords =
          .returned (some doc)
        ∧ doc.data = keywords.map (fun k => get_keyword_data k (fetch k) score)
        ∧ doc.data.length = keywords.length := by
  refine ⟨get_keyword_data_fetchErr kw e score,
          get_keyword_data_scoreErr kw tweets score e2 hscore, ?_⟩
  exact ⟨_, run_allOk sink fetch score keywords hins hpush hcomp, rfl, by simp⟩

/-- Claim C3 witness: the theorem applied to a failing scorer, a failing
fetch and a two-keyword run against a healthy sink. -/
theorem C3_exceptions_contained_witness :
    scoreTweets scoreFailW [goodTweet] = .error "nlp down"
    ∧ get_keyword_data "BTC" (.error "driver down") scoreFailW = .failure "BTC" "driver down"
    ∧ get_keyword_data "BTC" (.ok [goodTweet]) scoreFailW = .failure "BTC" "nlp down"
    ∧ ∃ doc, run_analytics_and_store true (.ok ()) okSink fetchFailW scoreFailW
          ["BTC", "ETH"] = .returned (some doc)
        ∧ doc.data = ["BTC", "ETH"].map (fun k => get_keyword_data k (fetchFailW k) scoreFailW)
        ∧ doc.data.length = ["BTC", "ETH"].length := by
  have hs : scoreTweets scoreFailW [goodTweet] = .error "nlp down" := by
    simp [scoreTweets, hasContent, goodTweet, scoreFailW]
  exact ⟨hs, C3_exceptions_contained "BTC" "driver down" "nlp down" scoreFailW [goodTweet]
    okSink fetchFailW ["BTC", "ETH"] hs rfl (fun _ => rfl) rfl⟩

/-- Claim C4 (amended): a run whose `insert_one` fails is never reported
`completed` (the function returns with nothing stored, or was skipped);
and a run where login, insert, every keyword's result push and the final
completed-status write succeed ends `completed` with one entry per
keyword. -/
theorem C4_run_status (sink sink2 : SinkModel)
    (fetch fetch2 : String → Except String (List TweetData))
    (score score2 : String → Except String ℚ)
    (keywords kws2 : List String) (creds2 : Bool) (login2 : Except String Unit)
    (e : String)
    (hins : sink.insert = .ok ()) (hpush : ∀ i, sink.mainPush i = .ok ())
    (hcomp : sink.setCompleted = .ok ())
    (hins2 : sink2.insert = .error e) :
    (run_analytics_and_store creds2 login2 sink2 fetch2 score2 kws2 = .skipped
      ∨ run_analytics_and_store creds2 login2 sink2 fetch2 score2 kws2 = .returned none)
    ∧ run_analytics_and_store true (.ok ()) sink fetch score keywords =
        .returned (some ⟨"completed",
          keywords.map fun kw => get_keyword_data kw (fetch kw) score, none⟩) := by
  refine ⟨?_, run_allOk sink fetch score keywords hins hpush hcomp⟩
  cases creds2 with
  | false => left; rfl
  | true =>
    right
    cases login2 with
    | error el => rfl
    | ok u => cases u; simp only [run_analytics_and_store, Bool.not_true, hins2]; simp

/-- Claim C4 counterexample: every keyword of the run is processed
successfully (its success record is stored), yet the run ends `failed`,
not `completed`, because the completed-status write itself raised. -/
theorem C4_counterexample :
    run_analytics_and_store true (.ok ()) compFailSink emptyFetch zeroScore ["BTC"] =
      .returned (some ⟨"failed", [.success ⟨"BTC", 0, 0, ⟨0, 0, 0⟩⟩],
        some "status write down"⟩)
    ∧ "failed" ≠ "completed" := by
  have hk : get_keyword_data "BTC" (.ok []) zeroScore = .success ⟨"BTC", 0, 0, ⟨0, 0, 0⟩⟩ := by
    rw [get_keyword_data_ok "BTC" [] zeroScore [] rfl]
    norm_num
  have hloop : processKeywords compFailSink emptyFetch zeroScore ["BTC"] 0
      ⟨"in_progress", [], none⟩ =
      .ok ⟨"in_progress", [.success ⟨"BTC", 0, 0, ⟨0, 0, 0⟩⟩], none⟩ := by
    simp only [processKeywords, compFailSink, emptyFetch, hk]
    rfl
  constructor
  · simp only [run_analytics_and_store, Bool.not_true, compFailSink, hloop]
    rfl
  · decide

/-- Claim C4 witness: the amended theorem applied to a healthy sink on one
keyword and to a sink whose insert raises. -/
theorem C4_run_status_witness :
    okSink.insert = .ok ()
    ∧ insFailSink.insert = .error "db down"
    ∧ ((run_analytics_and_store true (.ok ()) insFailSink emptyFetch zeroScore ["BTC"] = .skipped
        ∨ run_analytics_and_store true (.ok ()) insFailSink emptyFetch zeroScore ["BTC"]
          = .returned none)
      ∧ run_analytics_and_store true (.ok ()) okSink emptyFetch zeroScore ["BTC"] =
          .returned (some ⟨"completed",
            ["BTC"].map fun kw => get_keyword_data kw (emptyFetch kw) zeroScore, none⟩)) :=
  ⟨rfl, rfl, C4_run_status okSink insFailSink emptyFetch emptyFetch zeroScore zeroScore
    ["BTC"] ["BTC"] true (.ok ()) "db down" rfl (fun _ => rfl) rfl rfl⟩

/-- Claim C5 (amended): when an exception escapes the keyword loop after
the run document exists, the runner issues the failed-status `$set` with
the error text; but that update is not guarded — if it succeeds the
function returns the failed document, and if it raises, the secondary
write error propagates out of the job instead of being swallowed. -/
theorem C5_failed_update_unguarded (sink : SinkModel)
    (fetch : String → Except String (List TweetData))
    (score : String → Except String ℚ)
    (keywords : List String) (e : String) (doc : RunDoc)
    (hins : sink.insert = .ok ())
    (hloop : processKeywords sink fetch score keywords 0 ⟨"in_progress", [], none⟩ =
      .error (e, doc)) :
    (sink.setFailed = .ok () →
      run_analytics_and_store true (.ok ()) sink fetch score keywords =
        .returned (some { doc with status := "failed", error := some e }))
    ∧ (∀ e2, sink.setFailed = .error e2 →
      run_analytics_and_store true (.ok ()) sink fetch score keywords = .raised e2 doc) := by
  constructor
  · intro hsf
    simp only [run_analytics_and_store, Bool.not_true, hins, hloop, hsf]
    rfl
  · intro e2 hsf
    simp only [run_analytics_and_store, Bool.not_true, hins, hloop, hsf]
    rfl

/-- Claim C5 counterexample: the keyword loop aborts (both pushes for the
first keyword raise) and the failed-status update raises too — the
secondary write error escapes `run_analytics_and_store` (outcome
`raised`), it is not swallowed. -/
theorem C5_counterexample :
    run_analytics_and_store true (.ok ()) pushFailRaiseSink emptyFetch zeroScore ["BTC"] =
      .raised "status down" ⟨"in_progress", [], none⟩ := by
  have hloop : processKeywords pushFailRaiseSink emptyFetch zeroScore ["BTC"] 0
      ⟨"in_progress", [], none⟩ =
      .error ("push down", ⟨"in_progress", [], none⟩) := by
    simp only [processKeywords, pushFailRaiseSink]
  simp only [run_analytics_and_store, Bool.not_true, hloop,
    show pushFailRaiseSink.insert = Except.ok () from rfl,
    show pushFailRaiseSink.setFailed = Except.error "status down" from rfl]
  rfl

/-- Claim C5 witness: the amended theorem applied to a sink whose pushes
all raise but whose failed-status update succeeds. -/
theorem C5_failed_update_unguarded_witness :
    processKeywords pushFailSink emptyFetch zeroScore ["BTC"] 0
      ⟨"in_progress", [], none⟩ = .error ("push down", ⟨"in_progress", [], none⟩)
    ∧ (pushFailSink.setFailed = .ok () →
        run_analytics_and_store true (.ok ()) pushFailSink emptyFetch zeroScore ["BTC"] =
          .returned (some { (⟨"in_progress", [], none⟩ : RunDoc) with
            status := "failed", error := some "push down" }))
    ∧ (∀ e2, pushFailSink.setFailed = .error e2 →
        run_analytics_and_store true (.ok ()) pushFailSink emptyFetch zeroScore ["BTC"] =
          .raised e2 ⟨"in_progress", [], none⟩) := by
  have hloop : processKeywords pushFailSink emptyFetch zeroScore ["BTC"] 0
      ⟨"in_progress", [], none⟩ = .error ("push down", ⟨"in_progress", [], none⟩) := by
    simp only [processKeywords, pushFailSink]
  exact ⟨hloop, C5_failed_update_unguarded pushFailSink emptyFetch zeroScore ["BTC"]
    "push down" ⟨"in_progress", [], none⟩ rfl hloop⟩

/-- Claim C6 (amended): a failed result push for one keyword is caught and
an error-record push is attempted in its place; whenever that recovery
push succeeds for every affected keyword, all remaining keywords are still
processed and the run completes with one stored entry per keyword. -/
theorem C6_append_failure_recovered (sink : SinkModel)
    (fetch : String → Except String (List TweetData))
    (score : String → Except String ℚ) (keywords : List String)
    (h : ∀ i, sink.mainPush i = .ok () ∨ sink.fallbackPush i = .ok ())
    (hins : sink.insert = .ok ()) (hcomp : sink.setCompleted = .ok ()) :
    ∃ doc, run_analytics_and_store true (.ok ()) sink fetch score keywords =
        .returned (some doc)
      ∧ doc.data.length = keywords.length
      ∧ doc.status = "completed" := by
  obtain ⟨doc2, h1, h2, h3⟩ := processKeywords_entry_per_keyword sink fetch score h
    keywords 0 ⟨"in_progress", [], none⟩
  refine ⟨{ doc2 with status := "completed" }, ?_, by simpa using h2, rfl⟩
  simp only [run_analytics_and_store, Bool.not_true, hins, h1, hcomp]
  rfl

/-- Claim C6 counterexample: when both the result push and the
error-record push for the first keyword raise, the run aborts to `failed`
with no stored entries — the second keyword is never attempted, so a sink
append failure can block the remaining keywords. -/
theorem C6_counterexample :
    run_analytics_and_store true (.ok ()) pushFailSink emptyFetch zeroScore
      ["BTC", "ETH"] = .returned (some ⟨"failed", [], some "push down"⟩) := by
  have hloop : processKeywords pushFailSink emptyFetch zeroScore ["BTC", "ETH"] 0
      ⟨"in_progress", [], none⟩ = .error ("push down", ⟨"in_progress", [], none⟩) := by
    simp only [processKeywords, pushFailSink]
  simp only [run_analytics_and_store, Bool.not_true, hloop,
    show pushFailSink.insert = Except.ok () from rfl,
    show pushFailSink.setFailed = Except.ok () from rfl]
  rfl

/-- Claim C6 witness: the amended theorem applied to a sink whose first
result push raises but whose error-record pushes succeed, over two
keywords. -/
theorem C6_append_failure_recovered_witness :
    (∀ i, fallbackOkSink.mainPush i = .ok () ∨ fallbackOkSink.fallbackPush i = .ok ())
    ∧ ∃ doc, run_analytics_and_store true (.ok ()) fallbackOkSink emptyFetch zeroScore
          ["BTC", "ETH"] = .returned (some doc)
        ∧ doc.data.length = (["BTC", "ETH"] : List String).length
        ∧ doc.status = "completed" :=
  ⟨fun _ => Or.inr rfl,
   C6_append_failure_recovered fallbackOkSink emptyFetch zeroScore ["BTC", "ETH"]
     (fun _ => Or.inr rfl) rfl rfl⟩

/-- The card loop adds to `tweets_data` exactly the number of tweets it
counts in `added_tweets`. -/
theorem processCards_length (M : Nat) :
    ∀ cards tw ids a,
      (processCards M cards tw ids a).1.length + a
        = tw.length + (processCards M cards tw ids a).2.2 := by
  intro cards
  induction cards with
  | nil => intro tw ids a; rfl
  | cons card rest ih =>
    intro tw ids a
    by_cases h1 : M ≤ tw.length
    · simp [processCards, h1]
    · by_cases h2 : ids.contains card.cardId
      · simp only [processCards, h1, if_false, h2, if_true]
        exact ih tw ids a
      · rcases he : extract_tweet_data card with _ | e
        · simp only [processCards, h1, if_false, h2, Bool.false_eq_true, if_false, he]
          exact ih tw _ a
        · cases e with
          | adOnly =>
            simp only [processCards, h1, if_false, h2, Bool.false_eq_true, if_false, he]
            exact ih tw _ a
          | tweet t =>
            simp only [processCards, h1, if_false, h2, Bool.false_eq_true, if_false, he]
            by_cases h3 : !t.is_ad
            · simp only [h3, if_true]
              have := ih (tw ++ [t]) (card.cardId :: ids) (a + 1)
              simp only [List.length_append, List.length_cons, List.length_nil] at this ⊢
              omega
            · simp only [h3, Bool.false_eq_true, if_false]
              exact ih tw _ a

/-- The card loop never grows `tweets_data` beyond `max_tweets`. -/
theorem processCards_le (M : Nat) :
    ∀ cards tw ids a, tw.length ≤ M →
      (processCards M cards tw ids a).1.length ≤ M := by
  intro cards
  induction cards with
  | nil => intro tw ids a h; exact h
  | cons card rest ih =>
    intro tw ids a h
    by_cases h1 : M ≤ tw.length
    · simpa [processCards, h1] using h
    · by_cases h2 : ids.contains card.cardId
      · simp only [processCards, h1, if_false, h2, if_true]
        exact ih tw ids a h
      · rcases he : extract_tweet_data card with _ | e
        · simp only [processCards, h1, if_false, h2, Bool.false_eq_true, if_false, he]
          exact ih tw _ a h
        · cases e with
          | adOnly =>
            simp only [processCards, h1, if_false, h2, Bool.false_eq_true, if_false, he]
            exact ih tw _ a h
          | tweet t =>
            simp only [processCards, h1, if_false, h2, Bool.false_eq_true, if_false, he]
            by_cases h3 : !t.is_ad
            · simp only [h3, if_true]
              refine ih (tw ++ [t]) _ _ ?_
              simp only [List.length_append, List.length_cons, List.length_nil]
              omega
            · simp only [h3, Bool.false_eq_true, if_false]
              exact ih tw _ a h

/-- The card loop only ever appends tweets whose `is_ad` flag was checked
false. -/
theorem processCards_no_ad (M : Nat) :
    ∀ cards tw ids a, (∀ t ∈ tw, t.is_ad = false) →
      ∀ t ∈ (processCards M cards tw ids a).1, t.is_ad = false := by
  intro cards
  induction cards with
  | nil => intro tw ids a h; exact h
  | cons card rest ih =>
    intro tw ids a h
    by_cases h1 : M ≤ tw.length
    · simpa [processCards, h1] using h
    · by_cases h2 : ids.contains card.cardId
      · simp only [processCards, h1, if_false, h2, if_true]
        exact ih tw ids a h
      · rcases he : extract_tweet_data card with _ | e
        · simp only [processCards, h1, if_false, h2, Bool.false_eq_true, if_false, he]
          exact ih tw _ a h
        · cases e with
          | adOnly =>
            simp only [processCards, h1, if_false, h2, Bool.false_eq_true, if_false, he]
            exact ih tw _ a h
          | tweet t =>
            simp only [processCards, h1, if_false, h2, Bool.false_eq_true, if_false, he]
            by_cases h3 : !t.is_ad
            · simp only [h3, if_true]
              refine ih (tw ++ [t]) _ _ ?_
              intro t2 ht2
              rcases List.mem_append.mp ht2 with hin | hin
              · exact h t2 hin
              · rcases List.mem_singleton.mp hin with rfl
                simpa using h3
            · simp only [h3, Bool.false_eq_true, if_false]
              exact ih tw _ a h

/-- A card whose `str(card)` identity is already recorded is skipped by
the card loop: dedup is by element identity, not by content. -/
theorem processCards_skips_seen (M : Nat) (card : Card) (rest : List Card)
    (tw : List TweetData) (ids : List String) (a : Nat)
    (hseen : ids.contains card.cardId = true) (hlen : tw.length < M) :
    processCards M (card :: rest) tw ids a = processCards M rest tw ids a := by
  simp only [processCards]
  rw [if_neg (Nat.not_le.mpr hlen), if_pos hseen]

/-- Invariant of the scroll loop: a returned tweet list respects the
sample bound and contains no ads, given a state that does. -/
theorem scrapeLoopFuel_inv (M S : Nat) (pages : Nat → Option (List Card)) :
    ∀ fuel n st l, st.tweets_data.length ≤ M →
      (∀ t ∈ st.tweets_data, t.is_ad = false) →
      scrapeLoopFuel M S pages fuel n st = some l →
      l.length ≤ M ∧ ∀ t ∈ l, t.is_ad = false := by
  intro fuel
  induction fuel with
  | zero =>
    intro n st l hlen had h
    simp only [scrapeLoopFuel] at h
    by_cases hcond : st.tweets_data.length < M ∧ st.scroll_attempts < S
    · rw [if_pos hcond] at h
      cases h
    · rw [if_neg hcond] at h
      cases h
      exact ⟨hlen, had⟩
  | succ fuel ih =>
    intro n st l hlen had h
    simp only [scrapeLoopFuel] at h
    by_cases hcond : st.tweets_data.length < M ∧ st.scroll_attempts < S
    · rw [if_pos hcond] at h
      cases hp : pages n with
      | none =>
        rw [hp] at h
        exact ih (n + 1) ⟨st.tweets_data, st.tweet_ids, st.scroll_attempts + 1⟩ l hlen had h
      | some cards =>
        rw [hp] at h
        dsimp only at h
        have hble := processCards_le M cards st.tweets_data st.tweet_ids 0 hlen
        have hbad := processCards_no_ad M cards st.tweets_data st.tweet_ids 0 had
        by_cases hz : (processCards M cards st.tweets_data st.tweet_ids 0).2.2 = 0
        · rw [if_pos hz] at h
          exact ih (n + 1) _ l hble hbad h
        · rw [if_neg hz] at h
          exact ih (n + 1) _ l hble hbad h
    · rw [if_neg hcond] at h
      cases h
      exact ⟨hlen, had⟩

/-- Any fuel at least the lexicographic measure of the state suffices for
the scroll loop to reach its exit condition. -/
theorem scrapeLoopFuel_some (M : Nat) (pages : Nat → Option (List Card)) :
    ∀ fuel n st, scrapeMeasure M st ≤ fuel →
      ∃ l, scrapeLoopFuel M 10 pages fuel n st = some l := by
  intro fuel
  induction fuel with
  | zero =>
    intro n st hm
    simp only [scrapeLoopFuel]
    by_cases hcond : st.tweets_data.length < M ∧ st.scroll_attempts < 10
    · exfalso
      unfold scrapeMeasure at hm
      obtain ⟨h1, h2⟩ := hcond
      omega
    · rw [if_neg hcond]
      exact ⟨_, rfl⟩
  | succ fuel ih =>
    intro n st hm
    simp only [scrapeLoopFuel]
    by_cases hcond : st.tweets_data.length < M ∧ st.scroll_attempts < 10
    · rw [if_pos hcond]
      obtain ⟨h1, h2⟩ := hcond
      cases hp : pages n with
      | none =>
        show ∃ l, scrapeLoopFuel M 10 pages fuel (n + 1)
          ⟨st.tweets_data, st.tweet_ids, st.scroll_attempts + 1⟩ = some l
        apply ih (n + 1)
        unfold scrapeMeasure at hm ⊢
        dsimp only
        omega
      | some cards =>
        have hplen := processCards_length M cards st.tweets_data st.tweet_ids 0
        by_cases hz : (processCards M cards st.tweets_data st.tweet_ids 0).2.2 = 0
        · show ∃ l, (if (processCards M cards st.tweets_data st.tweet_ids 0).2.2 = 0 then
              scrapeLoopFuel M 10 pages fuel (n + 1)
                ⟨(processCards M cards st.tweets_data st.tweet_ids 0).1,
                 (processCards M cards st.tweets_data st.tweet_ids 0).2.1,
                 st.scroll_attempts + 1⟩
            else
              scrapeLoopFuel M 10 pages fuel (n + 1)
                ⟨(processCards M cards st.tweets_data st.tweet_ids 0).1,
                 (processCards M cards st.tweets_data st.tweet_ids 0).2.1, 0⟩) = some l
          rw [if_pos hz]
          apply ih (n + 1)
          unfold scrapeMeasure at hm ⊢
          dsimp only
          omega
        · show ∃ l, (if (processCards M cards st.tweets_data st.tweet_ids 0).2.2 = 0 then
              scrapeLoopFuel M 10 pages fuel (n + 1)
                ⟨(processCards M cards st.tweets_data st.tweet_ids 0).1,
                 (processCards M cards st.tweets_data st.tweet_ids 0).2.1,
                 st.scroll_attempts + 1⟩
            else
              scrapeLoopFuel M 10 pages fuel (n + 1)
                ⟨(processCards M cards st.tweets_data st.tweet_ids 0).1,
                 (processCards M cards st.tweets_data st.tweet_ids 0).2.1, 0⟩) = some l
          rw [if_neg hz]
          apply ih (n + 1)
          unfold scrapeMeasure at hm ⊢
          dsimp only
          omega
    · rw [if_neg hcond]
      exact ⟨_, rfl⟩

/-- Claim C7 (amended): `scrape_keyword_tweets` returns at most `limit`
posts and none flagged as advertisement; deduplication, however, is by
DOM-element identity (`str(card)`) — a card whose element identity was
already seen is skipped — not by content identity, so posts with identical
content can both be returned. -/
theorem C7_scrape_contract (pages : Nat → Option (List Card)) (max_tweets : Nat)
    (l : List TweetData) (h : scrape_keyword_tweets pages max_tweets = some l) :
    l.length ≤ max_tweets
    ∧ (∀ t ∈ l, t.is_ad = false)
    ∧ ∀ card rest tw ids a, ids.contains card.cardId = true →
        tw.length < max_tweets →
        processCards max_tweets (card :: rest) tw ids a
          = processCards max_tweets rest tw ids a := by
  have hinv := scrapeLoopFuel_inv max_tweets 10 pages (max_tweets * 11 + 10) 0
    ⟨[], [], 0⟩ l (by simp) (by simp) h
  exact ⟨hinv.1, hinv.2,
    fun card rest tw ids a h1 h2 =>
      processCards_skips_seen max_tweets card rest tw ids a h1 h2⟩

/-- Claim C7 counterexample: two distinct DOM elements carrying the same
text are both returned — the scrape result contains two posts with the
same content, so posts do not appear "at most once by content
identity". -/
theorem C7_counterexample :
    scrape_keyword_tweets pagesDup 20 =
      some [⟨"same text", "@u1", ⟨0, 0, 0⟩, false⟩,
            ⟨"same text", "@u2", ⟨0, 0, 0⟩, false⟩]
    ∧ (⟨"same text", "@u1", ⟨0, 0, 0⟩, false⟩ : TweetData).content =
        (⟨"same text", "@u2", ⟨0, 0, 0⟩, false⟩ : TweetData).content
    ∧ (⟨"same text", "@u1", ⟨0, 0, 0⟩, false⟩ : TweetData) ≠
        (⟨"same text", "@u2", ⟨0, 0, 0⟩, false⟩ : TweetData) := by
  refine ⟨by decide, rfl, by decide⟩

/-- Claim C7 witness: the amended theorem applied to a concrete page
stream with an ad card, a good card and a card with a repeated element
identity. -/
theorem C7_scrape_contract_witness :
    scrape_keyword_tweets (fun _ => some []) 20 = some []
    ∧ (([] : List TweetData).length ≤ 20
      ∧ (∀ t ∈ ([] : List TweetData), t.is_ad = false)
      ∧ ∀ card rest tw ids a, ids.contains card.cardId = true →
          tw.length < 20 →
          processCards 20 (card :: rest) tw ids a
            = processCards 20 rest tw ids a) := by
  have h : scrape_keyword_tweets (fun _ => some []) 20 = some [] := by decide
  exact ⟨h, C7_scrape_contract (fun _ => some []) 20 [] h⟩

/-- Claim C9 (amended): with credentials configured and a successful
scraper login, the `/analytics` response is the list of per-keyword
results — one entry (success or failure) for each configured keyword, in
order, each carrying its keyword. -/
theorem C9_on_demand_per_keyword (login : Except String Unit)
    (fetch : String → Except String (List TweetData))
    (score : String → Except String ℚ)
    (hl : login = .ok ()) :
    ∃ items, get_analytics true login fetch score = .results items
      ∧ items.length = KEYWORDS.length
      ∧ items.map KeywordResult.kwOf = KEYWORDS := by
  subst hl
  refine ⟨_, rfl, by simp, ?_⟩
  simp [KEYWORDS, kwOf_get_keyword_data]

/-- Claim C9 counterexample: with credentials configured but the login
raising, the response is the single error dictionary, not a sequence of
per-keyword entries. -/
theorem C9_counterexample :
    get_analytics true (.error "login failed") emptyFetch zeroScore =
      .errorResp "Failed to get analytics: login failed"
    ∧ (get_analytics true (.error "login failed") emptyFetch zeroScore).isResults
        = false :=
  ⟨rfl, rfl⟩

/-- Claim C9 witness: the amended theorem applied to a successful login
with a concrete fetch and scorer. -/
theorem C9_on_demand_per_keyword_witness :
    ∃ items, get_analytics true (.ok ()) emptyFetch zeroScore = .results items
      ∧ items.length = KEYWORDS.length
      ∧ items.map KeywordResult.kwOf = KEYWORDS :=
  C9_on_demand_per_keyword (.ok ()) emptyFetch zeroScore rfl

/-- Claim C10: the scroll-and-collect loop terminates for every input:
its iteration count is bounded by `max_tweets * 11 + 10` (each iteration
either grows the tweet list, bounded by `max_tweets`, or increments the
scroll counter, capped at 10), so with that much fuel the loop reaches its
exit condition for any page stream. -/
theorem C10_scroll_loop_terminates (pages : Nat → Option (List Card))
    (max_tweets fuel : Nat) (hfuel : max_tweets * 11 + 10 ≤ fuel) :
    (∃ l, scrapeLoopFuel max_tweets 10 pages fuel 0 ⟨[], [], 0⟩ = some l)
    ∧ ∃ l, scrape_keyword_tweets pages max_tweets = some l := by
  constructor
  · apply scrapeLoopFuel_some max_tweets pages fuel 0
    unfold scrapeMeasure
    simp only [List.length_nil, Nat.sub_zero]
    omega
  · unfold scrape_keyword_tweets
    apply scrapeLoopFuel_some max_tweets pages (max_tweets * 11 + 10) 0
    unfold scrapeMeasure
    simp only [List.length_nil, Nat.sub_zero]
    omega

/-- Claim C10 witness: the termination bound applied to a concrete page
stream that raises on every iteration. -/
theorem C10_scroll_loop_terminates_witness :
    20 * 11 + 10 ≤ 230
    ∧ ((∃ l, scrapeLoopFuel 20 10 (fun _ => none) 230 0 ⟨[], [], 0⟩ = some l)
      ∧ ∃ l, scrape_keyword_tweets (fun _ => none) 20 = some l) :=
  ⟨by decide, C10_scroll_loop_terminates (fun _ => none) 20 230 (by decide)⟩
